import Mathlib

/-!
Shallow embedding of the "Duck Duck Diameter" notebook: a Monte Carlo
simulation estimating the probability that `n` uniform random points on a
circle all lie in a common semicircle.  Real values are modelled by `ℚ`;
the global random stream `random.random()` is modelled by an explicit
stream `rng : ℕ → ℚ` together with the index of the next draw.  Fallible
operations (list indexing, division) return `Except PyError`.
-/

/-- Runtime errors the notebook code can raise. -/
inductive PyError where
  | indexError
  | zeroDivisionError
deriving DecidableEq, Repr

/-- Decidable equality for `Except`, so concrete runs can be checked by
`decide`. -/
instance exceptDecEq {ε α : Type} [DecidableEq ε] [DecidableEq α] :
    DecidableEq (Except ε α) := fun x y =>
  match x, y with
  | Except.ok a, Except.ok b =>
      if h : a = b then isTrue (by rw [h]) else isFalse (by simp [h])
  | Except.error e, Except.error f =>
      if h : e = f then isTrue (by rw [h]) else isFalse (by simp [h])
  | Except.ok _, Except.error _ => isFalse (by simp)
  | Except.error _, Except.ok _ => isFalse (by simp)

/-- Python `x % 1`: the fractional part `x - ⌊x⌋`, always in `[0, 1)`. -/
def pymod1 (x : ℚ) : ℚ := x - ⌊x⌋

/-- Python `range(n)` for an integer argument: empty whenever `n ≤ 0`. -/
def pyrange (n : ℤ) : List ℕ := List.range n.toNat

/-- The comparison used by Python `list.sort()` on our values. -/
def duckLE (a b : ℚ) : Bool := decide (a ≤ b)

/-- Core of `generate_ducks`, applied to the list of values drawn from the
random stream (`random_ducks` in the source).  `random_ducks[0]` raises an
`IndexError` on an empty list; otherwise the draws are shifted by
`rotation_delta = 0.5 - random_ducks[0]`, wrapped into `[0,1)` by `% 1`,
and sorted ascending. -/
def generate_ducks_list : List ℚ → Except PyError (List ℚ)
  | [] => Except.error PyError.indexError
  | v0 :: rest =>
    let rotation_delta : ℚ := 1 / 2 - v0
    let rotated_ducks := (v0 :: rest).map (fun duck => duck + rotation_delta)
    let ducks := rotated_ducks.map (fun duck => pymod1 duck)
    Except.ok (ducks.mergeSort duckLE)

/-- `generate_ducks(duck_count)`: draw `duck_count` values from the random
stream starting at position `off`, then rotate, wrap and sort them. -/
def generate_ducks (duck_count : ℤ) (rng : ℕ → ℚ) (off : ℕ) :
    Except PyError (List ℚ) :=
  generate_ducks_list ((pyrange duck_count).map (fun i => rng (off + i)))

/-- `calculate_distance(ducks) = ducks[-1] - ducks[0]`; both index
expressions raise `IndexError` on the empty list. -/
def calculate_distance (ducks : List ℚ) : Except PyError ℚ :=
  match ducks.getLast?, ducks.head? with
  | some last, some first => Except.ok (last - first)
  | _, _ => Except.error PyError.indexError

/-- `test_distance(distance) = distance <= 0.5`. -/
def test_distance (distance : ℚ) : Bool := decide (distance ≤ 1 / 2)

/-- Outcome of one loop iteration of `test`: whether the trial starting at
stream position `off` is a hit (errors count as no hit; they cannot occur
for `duck_count ≥ 1`). -/
def trial_hit (duck_count : ℤ) (rng : ℕ → ℚ) (off : ℕ) : Bool :=
  match (generate_ducks duck_count rng off).bind calculate_distance with
  | Except.ok d => test_distance d
  | Except.error _ => false

/-- Number of hits among `m` consecutive trials starting at stream
position `off` (each trial consumes `duck_count.toNat` draws). -/
def count_hits (duck_count : ℤ) (rng : ℕ → ℚ) : ℕ → ℕ → ℕ
  | 0, _ => 0
  | m + 1, off =>
      (if trial_hit duck_count rng off then 1 else 0) +
        count_hits duck_count rng m (off + duck_count.toNat)

/-- The `for _ in range(iterations)` loop of `test`: runs `m` trials,
threading the stream position and the `hits` counter; the first raised
error aborts the loop. -/
def run_trials (duck_count : ℤ) (rng : ℕ → ℚ) : ℕ → ℕ → ℕ → Except PyError ℕ
  | 0, _, hits => Except.ok hits
  | m + 1, off, hits =>
      match generate_ducks duck_count rng off with
      | Except.error e => Except.error e
      | Except.ok ducks =>
        match calculate_distance ducks with
        | Except.error e => Except.error e
        | Except.ok distance =>
          run_trials duck_count rng m (off + duck_count.toNat)
            (if test_distance distance then hits + 1 else hits)

/-- The trial runner `test(duck_count)` with the global `iterations` and
the random stream made explicit.  It returns
`(distances, hits, hits / iterations)` where `distances` stays the empty
list; the final division raises `ZeroDivisionError` when
`iterations = 0`. -/
def test (duck_count : ℤ) (iterations : ℤ) (rng : ℕ → ℚ) :
    Except PyError (List ℚ × ℕ × ℚ) :=
  match run_trials duck_count rng iterations.toNat 0 0 with
  | Except.error e => Except.error e
  | Except.ok hits =>
      if iterations = 0 then Except.error PyError.zeroDivisionError
      else Except.ok ([], hits, (hits : ℚ) / (iterations : ℚ))

/-- `expected_result(duck_count) = duck_count * (1 / 2 ** (duck_count - 1))`. -/
def expected_result (duck_count : ℕ) : ℚ :=
  duck_count * (1 / 2 ^ (duck_count - 1))

/-! ### Basic facts about the wrap operation `% 1` -/

lemma pymod1_eq_fract (x : ℚ) : pymod1 x = Int.fract x := rfl

lemma pymod1_nonneg (x : ℚ) : 0 ≤ pymod1 x := by
  rw [pymod1_eq_fract]; exact Int.fract_nonneg x

lemma pymod1_lt_one (x : ℚ) : pymod1 x < 1 := by
  rw [pymod1_eq_fract]; exact Int.fract_lt_one x

lemma pymod1_half : pymod1 (1 / 2) = 1 / 2 := by norm_num [pymod1]

/-- Wrapping is the identity on values already in `[0, 1)`. -/
lemma pymod1_eq_self (x : ℚ) (h0 : 0 ≤ x) (h1 : x < 1) : pymod1 x = x := by
  rw [pymod1_eq_fract]
  exact Int.fract_eq_self.mpr ⟨h0, h1⟩

/-- Adding an integer before wrapping changes nothing. -/
lemma pymod1_add_int (x : ℚ) (m : ℤ) : pymod1 (x + m) = pymod1 x := by
  rw [pymod1_eq_fract, pymod1_eq_fract, Int.fract_add_int]

/-! ### Structure of the generated sample -/

/-- The two list comprehensions of `generate_ducks` compose to a single
map that rotates by `0.5 - v0` and wraps. -/
lemma generate_ducks_list_eq (v0 : ℚ) (rest : List ℚ) :
    generate_ducks_list (v0 :: rest) =
      Except.ok (((v0 :: rest).map
        (fun v => pymod1 (v + (1 / 2 - v0)))).mergeSort duckLE) := by
  simp only [generate_ducks_list, List.map_map]
  rfl

lemma duckLE_trans (a b c : ℚ) (h1 : duckLE a b = true) (h2 : duckLE b c = true) :
    duckLE a c = true := by
  simp only [duckLE, decide_eq_true_eq] at h1 h2 ⊢
  exact le_trans h1 h2

lemma duckLE_total (a b : ℚ) : (duckLE a b || duckLE b a) = true := by
  simp only [duckLE, Bool.or_eq_true, decide_eq_true_eq]
  exact le_total a b

/-- For a nonempty draw list, `generate_ducks` succeeds and its output is
a sorted list of the same length with all entries in `[0, 1)`, containing
the anchored value `1/2`. -/
lemma generate_ducks_list_ok (vs : List ℚ) (hne : vs ≠ []) :
    ∃ ds, generate_ducks_list vs = Except.ok ds ∧
      ds.length = vs.length ∧
      List.Sorted (fun a b : ℚ => a ≤ b) ds ∧
      (∀ x ∈ ds, 0 ≤ x ∧ x < 1) ∧
      (1 / 2 : ℚ) ∈ ds := by
  obtain ⟨v0, rest, rfl⟩ := List.exists_cons_of_ne_nil hne
  rw [generate_ducks_list_eq]
  refine ⟨_, rfl, ?_, ?_, ?_, ?_⟩
  · rw [List.length_mergeSort, List.length_map]
  · have hp := List.sorted_mergeSort duckLE_trans duckLE_total
      ((v0 :: rest).map (fun v => pymod1 (v + (1 / 2 - v0))))
    exact hp.imp (fun h => by
      simpa only [duckLE, decide_eq_true_eq] using h)
  · intro x hx
    rw [List.mem_mergeSort] at hx
    obtain ⟨v, _, rfl⟩ := List.mem_map.mp hx
    exact ⟨pymod1_nonneg _, pymod1_lt_one _⟩
  · rw [List.mem_mergeSort]
    have h0 : pymod1 (v0 + (1 / 2 - v0)) = 1 / 2 := by
      have h : v0 + (1 / 2 - v0) = 1 / 2 := by ring
      rw [h, pymod1_half]
    have hmem : pymod1 (v0 + (1 / 2 - v0)) ∈
        (v0 :: rest).map (fun v => pymod1 (v + (1 / 2 - v0))) :=
      List.mem_map_of_mem _ (List.mem_cons_self v0 rest)
    rwa [h0] at hmem

/-- The list of draws consumed by one call of `generate_ducks` is nonempty
whenever the requested count is positive. -/
lemma draws_ne_nil (n : ℤ) (hn : 1 ≤ n) (rng : ℕ → ℚ) (off : ℕ) :
    (pyrange n).map (fun i => rng (off + i)) ≠ [] := by
  simp only [pyrange, ne_eq, List.map_eq_nil_iff, List.range_eq_nil]
  omega

lemma generate_ducks_ok (n : ℤ) (hn : 1 ≤ n) (rng : ℕ → ℚ) (off : ℕ) :
    ∃ ds, generate_ducks n rng off = Except.ok ds ∧
      ds.length = n.toNat ∧
      List.Sorted (fun a b : ℚ => a ≤ b) ds ∧
      (∀ x ∈ ds, 0 ≤ x ∧ x < 1) ∧
      (1 / 2 : ℚ) ∈ ds := by
  obtain ⟨ds, h1, h2, h3, h4, h5⟩ :=
    generate_ducks_list_ok _ (draws_ne_nil n hn rng off)
  refine ⟨ds, h1, ?_, h3, h4, h5⟩
  simpa [pyrange] using h2

/-- `generate_ducks` hits `random_ducks[0]` on an empty list whenever the
requested count is not positive. -/
lemma generate_ducks_nonpos (n : ℤ) (hn : n ≤ 0) (rng : ℕ → ℚ) (off : ℕ) :
    generate_ducks n rng off = Except.error PyError.indexError := by
  have h0 : n.toNat = 0 := by omega
  simp [generate_ducks, pyrange, h0, generate_ducks_list]

/-! ### The span computation -/

lemma calculate_distance_nil :
    calculate_distance ([] : List ℚ) = Except.error PyError.indexError := rfl

lemma calculate_distance_ok (l : List ℚ) (h : l ≠ []) :
    calculate_distance l = Except.ok (l.getLast h - l.head h) := by
  simp [calculate_distance, List.getLast?_eq_getLast l h, List.head?_eq_head h]

/-! ### The trial loop -/

/-- For a positive point count the loop body never raises, and one
iteration contributes exactly the outcome of `trial_hit`. -/
lemma run_trials_ok (n : ℤ) (hn : 1 ≤ n) (rng : ℕ → ℚ) :
    ∀ (m off hits : ℕ), run_trials n rng m off hits =
      Except.ok (hits + count_hits n rng m off) := by
  intro m
  induction m with
  | zero => intro off hits; simp [run_trials, count_hits]
  | succ m ih =>
      intro off hits
      obtain ⟨ds, hds, hlen, _, _, _⟩ := generate_ducks_ok n hn rng off
      have hne : ds ≠ [] := by
        intro hnil
        rw [hnil] at hlen
        simp only [List.length_nil] at hlen
        omega
      have htr : trial_hit n rng off = test_distance (ds.getLast hne - ds.head hne) := by
        simp [trial_hit, hds, Except.bind, calculate_distance_ok ds hne]
      simp only [run_trials, hds, calculate_distance_ok ds hne, ih, count_hits, htr]
      cases h : test_distance (ds.getLast hne - ds.head hne) <;> (simp; try omega)

/-- For valid inputs `test` succeeds and returns the empty distance list,
the hit count, and the empirical ratio. -/
lemma test_ok (n k : ℤ) (hn : 1 ≤ n) (hk : 1 ≤ k) (rng : ℕ → ℚ) :
    test n k rng = Except.ok ([], count_hits n rng k.toNat 0,
      (count_hits n rng k.toNat 0 : ℚ) / (k : ℚ)) := by
  have hk0 : ¬(k = 0) := by omega
  simp [test, run_trials_ok n hn rng k.toNat 0 0, hk0]

/-- With a non-positive point count the very first trial raises. -/
lemma run_trials_nonpos (n : ℤ) (hn : n ≤ 0) (rng : ℕ → ℚ) (m off hits : ℕ) :
    run_trials n rng (m + 1) off hits = Except.error PyError.indexError := by
  simp [run_trials, generate_ducks_nonpos n hn rng off]

lemma test_err_nonpos_points (n k : ℤ) (hn : n ≤ 0) (hk : 1 ≤ k) (rng : ℕ → ℚ) :
    test n k rng = Except.error PyError.indexError := by
  obtain ⟨m, hm⟩ : ∃ m, k.toNat = m + 1 := ⟨k.toNat - 1, by omega⟩
  simp [test, hm, run_trials_nonpos n hn rng m 0 0]

/-- With zero iterations the loop never runs; the failure is the division
`hits / iterations` at the very end. -/
lemma test_zero_iterations (n : ℤ) (rng : ℕ → ℚ) :
    test n 0 rng = Except.error PyError.zeroDivisionError := by
  simp [test, run_trials]

/-- With negative iterations nothing fails at all: the loop is empty and
`0 / iterations = 0`. -/
lemma test_neg_iterations (n k : ℤ) (hk : k < 0) (rng : ℕ → ℚ) :
    test n k rng = Except.ok ([], 0, 0) := by
  have h1 : k.toNat = 0 := by omega
  have h2 : ¬(k = 0) := by omega
  simp [test, h1, run_trials, h2]

/-! ### Rotation invariance -/

/-- Wrapping a rotated wrapped value: the inner wraps only shift the
argument by an integer, so they cancel. -/
lemma pymod1_shift (v v0 c : ℚ) :
    pymod1 (pymod1 (v + c) + (1 / 2 - pymod1 (v0 + c))) =
      pymod1 (v + (1 / 2 - v0)) := by
  have h : pymod1 (v + c) + (1 / 2 - pymod1 (v0 + c)) =
      v + (1 / 2 - v0) + ((⌊v0 + c⌋ - ⌊v + c⌋ : ℤ) : ℚ) := by
    simp only [pymod1]
    push_cast
    ring
  rw [h, pymod1_add_int]

/-- Shifting all draws by a constant `c` modulo 1 produces the same
sample: the rotation step cancels the shift exactly. -/
lemma generate_ducks_list_shift (vs : List ℚ) (hne : vs ≠ []) (c : ℚ) :
    generate_ducks_list (vs.map (fun v => pymod1 (v + c))) =
      generate_ducks_list vs := by
  obtain ⟨v0, rest, rfl⟩ := List.exists_cons_of_ne_nil hne
  rw [List.map_cons, generate_ducks_list_eq, generate_ducks_list_eq]
  refine congrArg _ (congrArg (fun l => List.mergeSort l duckLE) ?_)
  rw [List.map_cons, List.map_cons, List.map_map]
  refine congrArg₂ List.cons ?_ ?_
  · exact pymod1_shift v0 v0 c
  · refine List.map_congr_left (fun v _ => ?_)
    simp only [Function.comp_apply]
    exact pymod1_shift v v0 c

/-! ### Concrete inputs used by witnesses and counterexamples -/

/-- A constant random stream (every draw is `0`). -/
def wrng : ℕ → ℚ := fun _ => 0

/-- A stream whose first three draws are `0.5, 0.1, 0.9`: with three
points the resulting trial has span `0.8` and is a miss. -/
def cexStream : ℕ → ℚ :=
  fun i => if i = 0 then 1/2 else if i = 1 then 1/10 else 9/10

lemma cex_generate :
    generate_ducks 3 cexStream 0 = Except.ok [1/10, 1/2, 9/10] := by
  have h1 : (pyrange 3).map (fun i => cexStream (0 + i)) =
      [1/2, 1/10, 9/10] := by
    have h3 : (3 : ℤ).toNat = 3 := rfl
    norm_num [pyrange, cexStream, h3, List.range_succ]
  rw [generate_ducks, h1, generate_ducks_list_eq]
  have h2 : ([(1:ℚ)/2, 1/10, 9/10]).map
      (fun v => pymod1 (v + (1 / 2 - 1 / 2))) = [1/2, 1/10, 9/10] := by
    norm_num [pymod1_eq_self]
  rw [h2]
  norm_num [List.mergeSort, List.merge, duckLE]

lemma cex_test : test 3 1 cexStream = Except.ok ([], 0, 0) := by
  rw [test_ok 3 1 (by norm_num) (by norm_num) cexStream]
  have ht : trial_hit 3 cexStream 0 = false := by
    rw [trial_hit, cex_generate]
    norm_num [Except.bind, calculate_distance, test_distance]
  have hc : count_hits 3 cexStream (1 : ℤ).toNat 0 = 0 := by
    simp [count_hits, Int.toNat_one, ht]
  rw [hc]
  norm_num

lemma wrng_generate : generate_ducks 1 wrng 0 = Except.ok [1/2] := by
  have h1 : (pyrange 1).map (fun i => wrng (0 + i)) = [0] := by
    norm_num [pyrange, wrng, List.range_succ]
  rw [generate_ducks, h1, generate_ducks_list_eq]
  norm_num [pymod1_eq_self, List.mergeSort_singleton]

/-! ### Claim theorems -/

/-- C1 counterexample: at point count 3, iteration count 1, and draws
`0.5, 0.1, 0.9`, the single trial has span `0.8 > 0.5` (a miss), so the
runner returns `([], 0, 0)`.  The claimed triple `(hit_count, k,
hit_count/k)` would put the iteration count `k = 1` in the second
component, but the second component is the hit count `0`; the first
component is the (always empty) `distances` list, not the hit count. -/
theorem c1_counterexample :
    test 3 1 cexStream = Except.ok ([], 0, 0) ∧
    test 3 1 cexStream ≠ Except.ok ([], 1, 0) := by
  refine ⟨cex_test, ?_⟩
  rw [cex_test]
  simp [Prod.ext_iff]

/-- C1 (amended): for every point count n ≥ 1 and iteration count k ≥ 1,
the trial runner returns the triple `(distances, hit_count, hit_count/k)`
where `distances` is the always-empty list of recorded distances and
`hit_count` is the number of the k trials whose sample span was ≤ 0.5. -/
theorem c1_trial_runner_output (n k : ℤ) (hn : 1 ≤ n) (hk : 1 ≤ k)
    (rng : ℕ → ℚ) :
    test n k rng = Except.ok ([], count_hits n rng k.toNat 0,
      (count_hits n rng k.toNat 0 : ℚ) / (k : ℚ)) :=
  test_ok n k hn hk rng

/-- C1 witness: one point, one iteration, constant stream — the single
trial is a hit, and the runner returns `([], 1, 1)`. -/
theorem c1_trial_runner_output_witness :
    test 1 1 wrng = Except.ok ([], 1, 1) := by
  have h := c1_trial_runner_output 1 1 (by norm_num) (by norm_num) wrng
  rw [h]
  have ht : trial_hit 1 wrng 0 = true := by
    rw [trial_hit, wrng_generate]
    norm_num [Except.bind, calculate_distance, test_distance]
  have hc : count_hits 1 wrng (1 : ℤ).toNat 0 = 1 := by
    simp [count_hits, Int.toNat_one, ht]
  rw [hc]
  norm_num

/-- C2 counterexample: with iteration count k = -1 ≤ 0 the trial runner
does not fail at all — the loop body never runs and it returns
`([], 0, 0.0)` — contradicting the claim that every k ≤ 0 fails with an
InvalidArgument condition before running trials. -/
theorem c2_counterexample : test 4 (-1) wrng = Except.ok ([], 0, 0) :=
  test_neg_iterations 4 (-1) (by norm_num) wrng

/-- C2 (amended): the trial runner performs no input validation.  For
n ≤ 0 with k ≥ 1 it fails with an IndexError raised inside
`generate_ducks` during the first trial; for k = 0 it fails with a
ZeroDivisionError when computing `hits / iterations` after the (empty)
loop; for k < 0 it returns `([], 0, 0.0)` with no error; for valid
inputs (n ≥ 1, k ≥ 1) no error is raised. -/
theorem c2_no_invalid_argument (n k : ℤ) (rng : ℕ → ℚ) :
    (n ≤ 0 → 1 ≤ k → test n k rng = Except.error PyError.indexError) ∧
    (k = 0 → test n k rng = Except.error PyError.zeroDivisionError) ∧
    (k < 0 → test n k rng = Except.ok ([], 0, 0)) ∧
    (1 ≤ n → 1 ≤ k →
      ∃ hits ratio, test n k rng = Except.ok ([], hits, ratio)) := by
  refine ⟨fun hn hk => test_err_nonpos_points n k hn hk rng,
    fun hk => ?_,
    fun hk => test_neg_iterations n k hk rng,
    fun hn hk => ⟨_, _, test_ok n k hn hk rng⟩⟩
  subst hk
  exact test_zero_iterations n rng

/-- C2 witness: concrete instances of the three failure modes and of a
valid error-free run. -/
theorem c2_no_invalid_argument_witness :
    test 0 5 wrng = Except.error PyError.indexError ∧
    test 2 0 wrng = Except.error PyError.zeroDivisionError ∧
    (∃ hits ratio, test 1 1 wrng = Except.ok ([], hits, ratio)) :=
  ⟨(c2_no_invalid_argument 0 5 wrng).1 (by norm_num) (by norm_num),
   (c2_no_invalid_argument 2 0 wrng).2.1 rfl,
   (c2_no_invalid_argument 1 1 wrng).2.2.2 (by norm_num) (by norm_num)⟩

/-- C3: for every n ≥ 1 and every list of n drawn values in [0,1), the
sample generator succeeds and its output is a list of length n, sorted
ascending, with every element in [0,1). -/
theorem c3_sample_sorted_bounded (n : ℕ) (hn : 1 ≤ n) (vs : List ℚ)
    (hlen : vs.length = n) (h01 : ∀ v ∈ vs, 0 ≤ v ∧ v < 1) :
    ∃ ds, generate_ducks_list vs = Except.ok ds ∧ ds.length = n ∧
      List.Sorted (fun a b : ℚ => a ≤ b) ds ∧ ∀ x ∈ ds, 0 ≤ x ∧ x < 1 := by
  have hne : vs ≠ [] := by
    intro h
    rw [h] at hlen
    simp only [List.length_nil] at hlen
    omega
  obtain ⟨ds, h1, h2, h3, h4, _⟩ := generate_ducks_list_ok vs hne
  exact ⟨ds, h1, by rw [h2, hlen], h3, h4⟩

/-- C3 witness: the generator output for the two draws `1/3, 2/3`. -/
theorem c3_sample_sorted_bounded_witness :
    ∃ ds, generate_ducks_list [1/3, 2/3] = Except.ok ds ∧ ds.length = 2 ∧
      List.Sorted (fun a b : ℚ => a ≤ b) ds ∧ ∀ x ∈ ds, 0 ≤ x ∧ x < 1 :=
  c3_sample_sorted_bounded 2 (by norm_num) [1/3, 2/3] (by norm_num)
    (by intro v hv; simp only [List.mem_cons, List.not_mem_nil, or_false] at hv
        rcases hv with rfl | rfl <;> norm_num)

/-- C4: for every n ≥ 1, `expected_result n` equals `n / 2 ^ (n - 1)`;
in particular `expected_result 2 = 1` and `expected_result 4 = 1/2`. -/
theorem c4_expected_probability (n : ℕ) (hn : 1 ≤ n) :
    expected_result n = (n : ℚ) / 2 ^ (n - 1) ∧
    expected_result 2 = 1 ∧ expected_result 4 = 1 / 2 := by
  refine ⟨?_, by norm_num [expected_result], by norm_num [expected_result]⟩
  rw [expected_result, mul_one_div]

/-- C4 witness: the formula evaluated at n = 10. -/
theorem c4_expected_probability_witness :
    expected_result 10 = (10 : ℚ) / 2 ^ 9 ∧
    expected_result 2 = 1 ∧ expected_result 4 = 1 / 2 :=
  c4_expected_probability 10 (by norm_num)

/-- C5: shifting every drawn value by a constant offset c modulo 1 before
generation does not change the hit/miss outcome — in fact the generated
sample itself is unchanged, because the rotation by `0.5 - v[0]` cancels
the shift exactly. -/
theorem c5_rotation_invariance (vs : List ℚ) (hne : vs ≠ []) (c : ℚ)
    (h01 : ∀ v ∈ vs, 0 ≤ v ∧ v < 1) :
    ((generate_ducks_list (vs.map (fun v => pymod1 (v + c)))).bind
        calculate_distance).map test_distance =
      ((generate_ducks_list vs).bind calculate_distance).map test_distance := by
  rw [generate_ducks_list_shift vs hne c]

/-- C5 witness: draws `1/4, 3/4` shifted by `1/2`. -/
theorem c5_rotation_invariance_witness :
    ((generate_ducks_list ([1/4, 3/4].map (fun v => pymod1 (v + 1/2)))).bind
        calculate_distance).map test_distance =
      ((generate_ducks_list [1/4, 3/4]).bind calculate_distance).map
        test_distance :=
  c5_rotation_invariance [1/4, 3/4] (by simp) (1/2)
    (by intro v hv; simp only [List.mem_cons, List.not_mem_nil, or_false] at hv
        rcases hv with rfl | rfl <;> norm_num)

/-- C6: two runs of the trial runner with identical point count,
iteration count and random stream (the explicit model of a fixed seed)
produce identical results, hence identical hit counts. -/
theorem c6_deterministic (n k : ℤ) (rng1 rng2 : ℕ → ℚ) (h : rng1 = rng2) :
    test n k rng1 = test n k rng2 := by rw [h]

/-- C6 witness: a concrete pair of identical runs. -/
theorem c6_deterministic_witness : test 4 10 wrng = test 4 10 wrng :=
  c6_deterministic 4 10 wrng wrng rfl

/-- C7: the rotation delta anchors the first drawn point exactly at 0.5:
`v[0] + (0.5 - v[0]) = 0.5` holds exactly in the embedding, and the value
0.5 is an element of the returned sorted sample. -/
theorem c7_anchor_half (n : ℤ) (hn : 1 ≤ n) (rng : ℕ → ℚ) (off : ℕ) :
    rng off + (1 / 2 - rng off) = 1 / 2 ∧
    ∃ ds, generate_ducks n rng off = Except.ok ds ∧ (1 / 2 : ℚ) ∈ ds := by
  refine ⟨by ring, ?_⟩
  obtain ⟨ds, h1, _, _, _, h5⟩ := generate_ducks_ok n hn rng off
  exact ⟨ds, h1, h5⟩

/-- C7 witness: three points drawn from the constant stream. -/
theorem c7_anchor_half_witness :
    wrng 0 + (1 / 2 - wrng 0) = 1 / 2 ∧
    ∃ ds, generate_ducks 3 wrng 0 = Except.ok ds ∧ (1 / 2 : ℚ) ∈ ds :=
  c7_anchor_half 3 (by norm_num) wrng 0

/-- C8: for a single point, every trial is a hit: whatever the drawn
value, the generated sample has span 0 and the hit test returns true. -/
theorem c8_single_point_always_hit (rng : ℕ → ℚ) (off : ℕ) :
    (generate_ducks 1 rng off).bind calculate_distance = Except.ok 0 ∧
    test_distance 0 = true := by
  have h1 : (pyrange 1).map (fun i => rng (off + i)) = [rng (off + 0)] := by
    norm_num [pyrange, List.range_succ]
  have h2 : generate_ducks 1 rng off =
      Except.ok [pymod1 (rng (off + 0) + (1 / 2 - rng (off + 0)))] := by
    rw [generate_ducks, h1, generate_ducks_list_eq]
    simp [List.mergeSort_singleton]
  constructor
  · rw [h2]
    norm_num [Except.bind, calculate_distance]
  · norm_num [test_distance]

/-- C9: the hit test is inclusive at the boundary: `test_distance d` is
true exactly when `d ≤ 0.5`, and a span of exactly 0.5 counts as a hit. -/
theorem c9_inclusive_boundary (d : ℚ) :
    (test_distance d = true ↔ d ≤ 1 / 2) ∧ test_distance (1 / 2) = true := by
  constructor
  · simp [test_distance]
  · norm_num [test_distance]

/-- C10: partiality at the interface: for n ≤ 0, `generate_ducks` reaches
the out-of-bounds index `random_ducks[0]` on an empty list, and
`calculate_distance` on an empty list likewise indexes out of bounds;
under the precondition n ≥ 1 (respectively a nonempty list) both
functions are total. -/
theorem c10_index_safety (n : ℤ) (rng : ℕ → ℚ) (off : ℕ) :
    (n ≤ 0 → generate_ducks n rng off = Except.error PyError.indexError) ∧
    calculate_distance ([] : List ℚ) = Except.error PyError.indexError ∧
    (1 ≤ n → ∃ ds, generate_ducks n rng off = Except.ok ds) ∧
    (∀ ducks : List ℚ, ducks ≠ [] →
      ∃ d, calculate_distance ducks = Except.ok d) := by
  refine ⟨fun hn => generate_ducks_nonpos n hn rng off, calculate_distance_nil,
    fun hn => ?_, fun ducks h => ⟨_, calculate_distance_ok ducks h⟩⟩
  obtain ⟨ds, h1, _, _, _, _⟩ := generate_ducks_ok n hn rng off
  exact ⟨ds, h1⟩

/-- C10 witness: concrete instances of the error branch and the total
branches. -/
theorem c10_index_safety_witness :
    generate_ducks 0 wrng 0 = Except.error PyError.indexError ∧
    (∃ ds, generate_ducks 2 wrng 0 = Except.ok ds) ∧
    (∃ d, calculate_distance [1/4, 3/4] = Except.ok d) :=
  ⟨(c10_index_safety 0 wrng 0).1 (by norm_num),
   (c10_index_safety 2 wrng 0).2.2.1 (by norm_num),
   (c10_index_safety 2 wrng 0).2.2.2 [1/4, 3/4] (by simp)⟩
